import Mathlib

/-!
Verification of the flash-sintering experiment control engine.

This file shallowly embeds the control core of the repository in Lean 4:

* `DAQController.set_outputs` (src/controllers/daq_keithley_controller.py)
  → `daqSetOutputs`
* `DeviceController._detect_cv_cc_transition`, `update_stage`,
  `start_process`, `stop_process`, `read_sample_voltage_improved`
  (src/controllers/device_controller.py)
  → `detectCvCcTransition`, `updateStage`, `startProcess`, `stopProcess`,
    `readSampleVoltageImproved`
* `TimerManager` (src/controllers/timer_manager.py)
  → `TimerManagerState` with `addTimer`, `startAll`, `stopTimer`,
    `updatePeriod`, `timerLoopStep`, `timerLoopRun`
* `MainController.update_parameters` (src/controllers/main_controller.py)
  → `updateParameters`

Python floats are modelled as exact rationals (ℚ); wall-clock instants are
passed in explicitly as a `now : ℚ` parameter wherever the source calls
`time.time()`.  Fallible hardware writes are modelled with `Except`; a
`hwOk : Bool` parameter stands for "the DAQ analog-output task exists and
the write succeeds".  Python `None` becomes `Option.none`, and Python
truthiness of optional floats (`if current and ...`) is modelled by
`optTruthy`, which is false for `None` and for `0.0`.
-/

/-- Power-supply regulation mode, `self.power_supply_mode ∈ {"CV", "CC"}`
in the source. -/
inductive PSMode where
  | CV
  | CC
deriving Repr, DecidableEq

/-- Python truthiness of an optional float: `None` and `0.0` are falsy,
every other float is truthy.  Models guards such as
`if current and current > 0.9 * current_limit`. -/
def optTruthy (x : Option ℚ) : Bool :=
  match x with
  | none => false
  | some v => decide (v ≠ 0)

/-- `STAGES["DWELL"]` from src/config/settings.py. -/
def STAGE_DWELL : Nat := 0
/-- `STAGES["INCUBATION"]` from src/config/settings.py. -/
def STAGE_INCUBATION : Nat := 1
/-- `STAGES["FLASH"]` from src/config/settings.py. -/
def STAGE_FLASH : Nat := 2
/-- `STAGES["HOLD"]` from src/config/settings.py. -/
def STAGE_HOLD : Nat := 3
/-- `STAGES["SHUTDOWN"]` from src/config/settings.py. -/
def STAGE_SHUTDOWN : Nat := 4

/-- `VOLTAGE_SCALE_OUTPUT = 60` from src/config/settings.py. -/
def VOLTAGE_SCALE_OUTPUT : ℚ := 60
/-- `CURRENT_SCALE = 0.4` from src/config/settings.py. -/
def CURRENT_SCALE : ℚ := 0.4

/-- Error raised by `DAQController.set_outputs`: `RuntimeError` when the
DAQ is unavailable, `ValueError` for each out-of-range argument. -/
inductive OutputError where
  | daqUnavailable
  | voltageOutOfRange
  | currentOutOfRange
deriving Repr, DecidableEq

/-- `DAQController.set_outputs(voltage, current)`
(src/controllers/daq_keithley_controller.py, lines 125-162).
Raises when the DAQ is missing or an argument is out of range — nothing is
written in that case — and otherwise writes the pair
`[voltage / VOLTAGE_SCALE_OUTPUT, current / (CURRENT_SCALE * 1000)]`
to the analog-output task; the returned pair is that written value. -/
def daqSetOutputs (hwOk : Bool) (voltage current : ℚ) : Except OutputError (ℚ × ℚ) :=
  if hwOk = false then Except.error OutputError.daqUnavailable
  else if ¬(0 ≤ voltage ∧ voltage ≤ 300) then Except.error OutputError.voltageOutOfRange
  else if ¬(0 ≤ current ∧ current ≤ 2000) then Except.error OutputError.currentOutOfRange
  else Except.ok (voltage / VOLTAGE_SCALE_OUTPUT, current / (CURRENT_SCALE * 1000))

/-- The mutable experiment state of `DeviceController`
(src/controllers/device_controller.py, `__init__`).  `outputs` is the pair
most recently written to the DAQ analog-output task (scaled to the 0-5 V
control range); `flash_start_time` is an `Option` because the source
guards it with `is None` / `hasattr` checks. -/
structure ControllerState where
  is_running : Bool
  current_stage : Nat
  sub_stage : Nat
  start_time : ℚ
  flash_start_time : Option ℚ
  hold_start_time : ℚ
  stage_2_time : ℚ
  temperature_reached : Bool
  power_supply_mode : PSMode
  cv_cc_transition_time : Option ℚ
  voltage_before_cc : Option ℚ
  current_limit_reached : Bool
  last_voltage : ℚ
  last_current : ℚ
  last_temperature : ℚ
  voltage_limit : ℚ
  current_limit : ℚ
  hold_time_limit : ℚ
  hold_elapsed_time : ℚ
  experiment_stopped_by_hold_time : Bool
  outputs : ℚ × ℚ
deriving Repr, DecidableEq

/-- The state set up by `DeviceController.__init__`. -/
def initialState : ControllerState where
  is_running := false
  current_stage := STAGE_DWELL
  sub_stage := 0
  start_time := 0
  flash_start_time := some 0
  hold_start_time := 0
  stage_2_time := 0
  temperature_reached := false
  power_supply_mode := PSMode.CV
  cv_cc_transition_time := none
  voltage_before_cc := none
  current_limit_reached := false
  last_voltage := 0
  last_current := 0
  last_temperature := 0
  voltage_limit := 0
  current_limit := 0
  hold_time_limit := 60
  hold_elapsed_time := 0
  experiment_stopped_by_hold_time := false
  outputs := (0, 0)

/-- `DeviceController._detect_cv_cc_transition(voltage, current, current_limit)`
(src/controllers/device_controller.py, lines 743-784).  Returns the updated
state together with the boolean "a transition occurred this call". -/
def detectCvCcTransition (now voltage current current_limit : ℚ)
    (s : ControllerState) : ControllerState × Bool :=
  if s.power_supply_mode = PSMode.CV ∧ current ≥ 0.95 * current_limit then
    ({ s with power_supply_mode := PSMode.CC,
              cv_cc_transition_time := some now,
              voltage_before_cc := some voltage,
              current_limit_reached := true }, true)
  else if s.power_supply_mode = PSMode.CC ∧ current < 0.8 * current_limit then
    ({ s with power_supply_mode := PSMode.CV,
              current_limit_reached := false }, true)
  else (s, false)

/-- Runs the detector over a list of `(now, voltage, current)` samples and
records the mode after each call together with the returned transition
flag. -/
def detectorTrace (current_limit : ℚ) (s : ControllerState) :
    List (ℚ × ℚ × ℚ) → List (PSMode × Bool)
  | [] => []
  | (now, v, c) :: rest =>
    let r := detectCvCcTransition now v c current_limit s
    (r.1.power_supply_mode, r.2) :: detectorTrace current_limit r.1 rest

/-- `DeviceController.stop_process` (src/controllers/device_controller.py,
lines 449-457).  Marks the run not-running and then attempts
`set_outputs(0, 0)`; the whole body sits inside `try/except`, so a failing
write is logged and swallowed and the function always returns normally. -/
def stopProcess (hwOk : Bool) (s : ControllerState) : ControllerState :=
  let s1 := { s with is_running := false }
  match daqSetOutputs hwOk 0 0 with
  | Except.ok out => { s1 with outputs := out }
  | Except.error _ => s1

/-- The measurement-dependent detector call at the top of `update_stage`
(src/controllers/device_controller.py, lines 475-481): the detector runs
only when both `voltage` and `current` are not `None`. -/
def afterDetect (now current_limit : ℚ) (voltage current : Option ℚ)
    (s : ControllerState) : ControllerState :=
  match voltage, current with
  | some v, some c => (detectCvCcTransition now v c current_limit s).1
  | _, _ => s

/-- The dwell-expiry check shared by both paths through the DWELL branch of
`update_stage` (the temperature sub-branch falls through to it after
setting `temperature_reached`). -/
def advanceDwell (dwell_time current_time : ℚ) (s : ControllerState) : ControllerState :=
  if current_time > dwell_time then
    { s with current_stage := STAGE_INCUBATION, sub_stage := 0 }
  else s

/-- The `STAGES["DWELL"]` branch of `update_stage`
(src/controllers/device_controller.py, lines 484-499). -/
def stageDwell (dwell_time : ℚ) (target_temperature : Option ℚ) (current_time : ℚ)
    (temperature : Option ℚ) (s : ControllerState) : ControllerState :=
  if optTruthy target_temperature ∧ s.temperature_reached = false then
    if optTruthy temperature ∧ temperature.getD 0 ≥ target_temperature.getD 0 then
      advanceDwell dwell_time current_time { s with temperature_reached := true }
    else s
  else advanceDwell dwell_time current_time s

/-- The `STAGES["INCUBATION"]` branch of `update_stage`
(src/controllers/device_controller.py, lines 502-527): preferred CV→CC
transition trigger first, then the legacy strict current-threshold
fallback. -/
def stageIncubation (current_limit now : ℚ) (current : Option ℚ)
    (s : ControllerState) : ControllerState :=
  if s.power_supply_mode = PSMode.CC ∧ optTruthy s.cv_cc_transition_time ∧
      now - s.cv_cc_transition_time.getD 0 < 1 then
    { s with current_stage := STAGE_FLASH, flash_start_time := some now,
             stage_2_time := now, sub_stage := 0 }
  else if optTruthy current ∧ current.getD 0 > 0.9 * current_limit then
    { s with current_stage := STAGE_FLASH, flash_start_time := some now,
             stage_2_time := now, sub_stage := 0 }
  else s

/-- The `STAGES["FLASH"]` branch of `update_stage`
(src/controllers/device_controller.py, lines 530-552); the throttled debug
logging has no effect on the experiment state and is not modelled. -/
def stageFlash (current_limit : ℚ) (current : Option ℚ) (now : ℚ)
    (s : ControllerState) : ControllerState :=
  if s.power_supply_mode = PSMode.CC ∧ s.current_limit_reached = true ∧
      optTruthy current ∧ current.getD 0 ≥ 0.95 * current_limit then
    { s with current_stage := STAGE_HOLD, hold_start_time := now, sub_stage := 0 }
  else s

/-- The `STAGES["HOLD"]` branch of `update_stage`
(src/controllers/device_controller.py, lines 555-600).  Updates
`hold_time_limit`, applies the `flash_start_time is None` fallback,
computes `hold_elapsed_time = now - flash_start_time`, and on reaching the
limit performs `set_outputs(0, 0)` (an exception there propagates, leaving
the rest of the branch unexecuted), `stop_process()`, and sets
`experiment_stopped_by_hold_time`.  Below the limit, only the 30-second
sub-stage flip happens.  The old SHUTDOWN-advancing logic is commented out
in the source and therefore absent here. -/
def stageHold (hwOk : Bool) (hold_time now : ℚ) (s : ControllerState) : ControllerState :=
  let s := { s with hold_time_limit := hold_time }
  let s := if s.flash_start_time = none then
             { s with flash_start_time := some s.hold_start_time }
           else s
  let s := { s with hold_elapsed_time := now - s.flash_start_time.getD 0 }
  if s.hold_elapsed_time ≥ s.hold_time_limit then
    match daqSetOutputs hwOk 0 0 with
    | Except.error _ => s
    | Except.ok out =>
      let s2 := stopProcess hwOk { s with outputs := out }
      { s2 with experiment_stopped_by_hold_time := true }
  else
    let hold_elapsed := now - s.hold_start_time
    if hold_elapsed > 30 ∧ s.sub_stage = 0 then { s with sub_stage := 1 } else s

/-- The `STAGES["SHUTDOWN"]` branch of `update_stage`
(src/controllers/device_controller.py, lines 603-608). -/
def stageShutdown (hwOk : Bool) (hold_current now : ℚ) (s : ControllerState) : ControllerState :=
  if now - s.hold_start_time > hold_current + 10 then stopProcess hwOk s else s

/-- `DeviceController.update_stage(dwell_time, hold_current, current_limit,
hold_time, target_temperature)` (src/controllers/device_controller.py,
lines 459-608).  `now` is `time.time()`; `voltage`, `current`,
`temperature` are the values returned by `get_measurements()` for this
tick (`none` = Python `None`). -/
def updateStage (hwOk : Bool) (dwell_time hold_current current_limit hold_time : ℚ)
    (target_temperature : Option ℚ) (now : ℚ)
    (voltage current temperature : Option ℚ) (s0 : ControllerState) : ControllerState :=
  if s0.is_running = false then s0
  else
    let current_time := now - s0.start_time
    let s := afterDetect now current_limit voltage current s0
    if s.current_stage = STAGE_DWELL then
      stageDwell dwell_time target_temperature current_time temperature s
    else if s.current_stage = STAGE_INCUBATION then
      stageIncubation current_limit now current s
    else if s.current_stage = STAGE_FLASH then
      stageFlash current_limit current now s
    else if s.current_stage = STAGE_HOLD then
      stageHold hwOk hold_time now s
    else if s.current_stage = STAGE_SHUTDOWN then
      stageShutdown hwOk hold_current now s
    else s

/-- Error raised by `DeviceController.start_process`: `RuntimeError` naming
the instrument that failed the pre-flight connection check. -/
inductive StartError where
  | daqNotConnected
  | keithleyNotConnected
deriving Repr, DecidableEq

/-- `DeviceController.start_process(voltage, current)`
(src/controllers/device_controller.py, lines 413-447).  Pre-flight
connection checks raise; otherwise the run is marked running, the stage is
reset to DWELL, CV/CC tracking and the hold-time auto-stop flag are reset,
the limits are stored, and `apply_voltage_current_limits` (which swallows
its own failures) writes them to the instruments. -/
def startProcess (daqConnected keithleyConnected hwOk : Bool)
    (voltage current now : ℚ) (s : ControllerState) :
    Except StartError ControllerState :=
  if daqConnected = false then Except.error StartError.daqNotConnected
  else if keithleyConnected = false then Except.error StartError.keithleyNotConnected
  else
    let s := { s with is_running := true, start_time := now,
                      current_stage := STAGE_DWELL }
    let s := { s with power_supply_mode := PSMode.CV,
                      cv_cc_transition_time := none,
                      voltage_before_cc := none,
                      current_limit_reached := false }
    let s := { s with experiment_stopped_by_hold_time := false }
    let s := { s with voltage_limit := voltage, current_limit := current,
                      last_voltage := voltage, last_current := current }
    let s := match daqSetOutputs hwOk s.voltage_limit s.current_limit with
      | Except.ok out => { s with outputs := out }
      | Except.error _ => s
    Except.ok s

/-- `DeviceController.read_sample_voltage_improved(daq_range, actual_range)`
(src/controllers/device_controller.py, lines 316-356).  `samples = none`
models the DAQ read raising: the exception handler returns the default
`0.0` instead of propagating the failure. -/
def readSampleVoltageImproved (daq_range actual_range : ℚ)
    (samples : Option (List ℚ)) : ℚ :=
  match samples with
  | some raw => (actual_range / daq_range) * (raw.sum / (raw.length : ℚ))
  | none => 0

/-- `MainController.update_parameters` limit derivation plus
`DeviceController.set_voltage_current_limits`
(src/controllers/main_controller.py lines 128-139,
src/controllers/device_controller.py lines 668-689). -/
def setVoltageCurrentLimits (voltage current : ℚ) (s : ControllerState) : ControllerState :=
  { s with voltage_limit := voltage, current_limit := current,
           last_voltage := voltage, last_current := current }

/-- `MainController.update_parameters(electrical_distance, width, thickness,
electric_field, current_density)` (src/controllers/main_controller.py,
lines 128-139). -/
def updateParameters (electrical_distance width thickness electric_field
    current_density : ℚ) (s : ControllerState) : ControllerState :=
  setVoltageCurrentLimits (electric_field * electrical_distance)
    (current_density * width * thickness) s

/-- Sets (replacing or appending) a key in an association list, modelling
Python dict assignment `d[k] = v`. -/
def assocSet {α : Type} : List (String × α) → String → α → List (String × α)
  | [], k, v => [(k, v)]
  | (k', v') :: rest, k, v =>
    if k' = k then (k, v) :: rest else (k', v') :: assocSet rest k v

/-- The mutable state of `TimerManager`
(src/controllers/timer_manager.py, `__init__`): the `timers` dict of
periods, the single shared `running` flag, and the `threads` dict, where
`true` models a live thread object and `false` models `None`.  Callbacks
are not stored; each loop iteration takes the callback's outcome as an
input instead. -/
structure TimerManagerState where
  timers : List (String × ℚ)
  running : Bool
  threads : List (String × Bool)
deriving Repr, DecidableEq

/-- The state set up by `TimerManager.__init__`. -/
def emptyTimerManager : TimerManagerState where
  timers := []
  running := false
  threads := []

/-- `TimerManager.add_timer(name, period, callback)`
(src/controllers/timer_manager.py, lines 16-25): stores the period and
sets `threads[name] = None`. -/
def addTimer (name : String) (period : ℚ) (tm : TimerManagerState) : TimerManagerState :=
  { tm with timers := assocSet tm.timers name period,
            threads := assocSet tm.threads name false }

/-- `TimerManager.start_all` (src/controllers/timer_manager.py, lines
53-57): sets the shared `running` flag and starts a thread for every
registered timer. -/
def startAll (tm : TimerManagerState) : TimerManagerState :=
  { tm with running := true, threads := tm.threads.map (fun p => (p.1, true)) }

/-- `TimerManager.stop_timer(name)` (src/controllers/timer_manager.py,
lines 43-51): only when `name` is registered and its thread is not `None`
does it clear the single shared `running` flag, join the thread, and set
the slot back to `None`; otherwise it does nothing. -/
def stopTimer (name : String) (tm : TimerManagerState) : TimerManagerState :=
  match tm.threads.lookup name with
  | some true => { tm with running := false,
                           threads := assocSet tm.threads name false }
  | _ => tm

/-- `TimerManager.update_period(name, new_period)`
(src/controllers/timer_manager.py, lines 89-96). -/
def updatePeriod (name : String) (newPeriod : ℚ) (tm : TimerManagerState) :
    TimerManagerState :=
  if (tm.timers.lookup name).isSome then
    { tm with timers := assocSet tm.timers name newPeriod }
  else tm

/-- One iteration of `TimerManager._timer_loop(name)`
(src/controllers/timer_manager.py, lines 67-87).  `none` means the
`while self.running` check failed and the loop exited; otherwise the
result is the computed sleep time `max(0, self.timers[name] - elapsed)`,
where the period is read from the dict at this iteration.  The callback
runs inside `try/except`, so its outcome `callbackOk` does not influence
whether the loop continues. -/
def timerLoopStep (tm : TimerManagerState) (name : String) (elapsed : ℚ)
    (callbackOk : Bool) : Option ℚ :=
  if tm.running = false then none
  else some (max 0 ((tm.timers.lookup name).getD 0 - elapsed))

/-- Several iterations of `TimerManager._timer_loop(name)`.  Each tick
carries an optional `update_period` request that arrived before the
period is read this iteration, the time the callback took, and whether
the callback raised.  Returns the sleep time of every executed
iteration. -/
def timerLoopRun (tm : TimerManagerState) (name : String) :
    List (Option ℚ × ℚ × Bool) → List ℚ
  | [] => []
  | (upd, elapsed, _callbackOk) :: rest =>
    if tm.running = false then []
    else
      let tm' := match upd with
        | some p => updatePeriod name p tm
        | none => tm
      max 0 ((tm'.timers.lookup name).getD 0 - elapsed) ::
        timerLoopRun tm' name rest

/-! ### Helper lemmas -/

/-- `_detect_cv_cc_transition` (hence `afterDetect`) writes only the four
detector fields; every other field of the controller state is preserved. -/
theorem afterDetect_frame (now lim : ℚ) (vo cu : Option ℚ) (s : ControllerState) :
    ∃ m t vb r, afterDetect now lim vo cu s =
      { s with power_supply_mode := m, cv_cc_transition_time := t,
               voltage_before_cc := vb, current_limit_reached := r } := by
  unfold afterDetect detectCvCcTransition
  cases vo with
  | none =>
    exact ⟨s.power_supply_mode, s.cv_cc_transition_time, s.voltage_before_cc,
      s.current_limit_reached, rfl⟩
  | some v =>
    cases cu with
    | none =>
      exact ⟨s.power_supply_mode, s.cv_cc_transition_time, s.voltage_before_cc,
        s.current_limit_reached, rfl⟩
    | some c =>
      by_cases h1 : s.power_supply_mode = PSMode.CV ∧ c ≥ 0.95 * lim
      · exact ⟨PSMode.CC, some now, some v, true, by simp [h1]⟩
      · by_cases h2 : s.power_supply_mode = PSMode.CC ∧ c < 0.8 * lim
        · exact ⟨PSMode.CV, s.cv_cc_transition_time, s.voltage_before_cc, false,
            by simp [h1, h2]⟩
        · exact ⟨s.power_supply_mode, s.cv_cc_transition_time, s.voltage_before_cc,
            s.current_limit_reached, by simp [h1, h2]⟩

theorem daqSetOutputs_zero : daqSetOutputs true 0 0 = Except.ok (0, 0) := by
  norm_num [daqSetOutputs]

theorem stopProcess_true (s : ControllerState) :
    stopProcess true s = { s with is_running := false, outputs := (0, 0) } := by
  unfold stopProcess
  rw [daqSetOutputs_zero]

theorem stopProcess_false (s : ControllerState) :
    stopProcess false s = { s with is_running := false } := rfl

theorem updateStage_dwell (hwOk : Bool) (dt hc lim ht : ℚ) (tt : Option ℚ) (now : ℚ)
    (vo cu te : Option ℚ) (s : ControllerState)
    (hrun : s.is_running = true) (hst : s.current_stage = STAGE_DWELL) :
    updateStage hwOk dt hc lim ht tt now vo cu te s =
      stageDwell dt tt (now - s.start_time) te (afterDetect now lim vo cu s) := by
  obtain ⟨m, t, vb, r, hEq⟩ := afterDetect_frame now lim vo cu s
  simp [updateStage, hrun, hEq, hst, STAGE_DWELL]

theorem updateStage_incubation (hwOk : Bool) (dt hc lim ht : ℚ) (tt : Option ℚ) (now : ℚ)
    (vo cu te : Option ℚ) (s : ControllerState)
    (hrun : s.is_running = true) (hst : s.current_stage = STAGE_INCUBATION) :
    updateStage hwOk dt hc lim ht tt now vo cu te s =
      stageIncubation lim now cu (afterDetect now lim vo cu s) := by
  obtain ⟨m, t, vb, r, hEq⟩ := afterDetect_frame now lim vo cu s
  simp [updateStage, hrun, hEq, hst, STAGE_DWELL, STAGE_INCUBATION]

theorem updateStage_flash (hwOk : Bool) (dt hc lim ht : ℚ) (tt : Option ℚ) (now : ℚ)
    (vo cu te : Option ℚ) (s : ControllerState)
    (hrun : s.is_running = true) (hst : s.current_stage = STAGE_FLASH) :
    updateStage hwOk dt hc lim ht tt now vo cu te s =
      stageFlash lim cu now (afterDetect now lim vo cu s) := by
  obtain ⟨m, t, vb, r, hEq⟩ := afterDetect_frame now lim vo cu s
  simp [updateStage, hrun, hEq, hst, STAGE_DWELL, STAGE_INCUBATION, STAGE_FLASH]

theorem updateStage_hold (hwOk : Bool) (dt hc lim ht : ℚ) (tt : Option ℚ) (now : ℚ)
    (vo cu te : Option ℚ) (s : ControllerState)
    (hrun : s.is_running = true) (hst : s.current_stage = STAGE_HOLD) :
    updateStage hwOk dt hc lim ht tt now vo cu te s =
      stageHold hwOk ht now (afterDetect now lim vo cu s) := by
  obtain ⟨m, t, vb, r, hEq⟩ := afterDetect_frame now lim vo cu s
  simp [updateStage, hrun, hEq, hst, STAGE_DWELL, STAGE_INCUBATION, STAGE_FLASH,
    STAGE_HOLD]

theorem updateStage_shutdown (hwOk : Bool) (dt hc lim ht : ℚ) (tt : Option ℚ) (now : ℚ)
    (vo cu te : Option ℚ) (s : ControllerState)
    (hrun : s.is_running = true) (hst : s.current_stage = STAGE_SHUTDOWN) :
    updateStage hwOk dt hc lim ht tt now vo cu te s =
      stageShutdown hwOk hc now (afterDetect now lim vo cu s) := by
  obtain ⟨m, t, vb, r, hEq⟩ := afterDetect_frame now lim vo cu s
  simp [updateStage, hrun, hEq, hst, STAGE_DWELL, STAGE_INCUBATION, STAGE_FLASH,
    STAGE_HOLD, STAGE_SHUTDOWN]

/-! ### Claim theorems -/

/-- C2: the CV/CC detector is a two-threshold hysteresis classifier: in CV
mode with `current ≥ 0.95 * current_limit` it switches to CC, records
`voltage_before_cc` and the transition time, sets `current_limit_reached`,
and reports a transition; in CC mode with `current < 0.80 * current_limit`
it switches to CV, clears the flag, and reports a transition; otherwise
the state is unchanged and no transition is reported.  On
`current_limit = 100` and currents `[50, 96, 97, 70]` from CV, the mode
sequence is `[CV, CC, CC, CV]` with exactly the transitions at indices 1
and 3. -/
theorem C2_cv_cc_detector (s : ControllerState) (now v c lim : ℚ) :
    (s.power_supply_mode = PSMode.CV → c ≥ 0.95 * lim →
      detectCvCcTransition now v c lim s =
        ({ s with power_supply_mode := PSMode.CC,
                  cv_cc_transition_time := some now,
                  voltage_before_cc := some v,
                  current_limit_reached := true }, true)) ∧
    (s.power_supply_mode = PSMode.CC → c < 0.8 * lim →
      detectCvCcTransition now v c lim s =
        ({ s with power_supply_mode := PSMode.CV,
                  current_limit_reached := false }, true)) ∧
    (s.power_supply_mode = PSMode.CV → c < 0.95 * lim →
      detectCvCcTransition now v c lim s = (s, false)) ∧
    (s.power_supply_mode = PSMode.CC → c ≥ 0.8 * lim →
      detectCvCcTransition now v c lim s = (s, false)) ∧
    detectorTrace 100 initialState [(0, 10, 50), (1, 10, 96), (2, 10, 97), (3, 10, 70)] =
      [(PSMode.CV, false), (PSMode.CC, true), (PSMode.CC, false), (PSMode.CV, true)] := by
  refine ⟨?_, ?_, ?_, ?_, ?_⟩
  · intro h1 h2
    simp [detectCvCcTransition, h1, h2]
  · intro h1 h2
    simp [detectCvCcTransition, h1, h2]
  · intro h1 h2
    simp [detectCvCcTransition, h1, not_le.mpr h2]
  · intro h1 h2
    simp [detectCvCcTransition, h1, not_lt.mpr h2]
  · norm_num [detectorTrace, detectCvCcTransition, initialState]
    split_ifs <;> simp_all

theorem C2_witness :
    detectCvCcTransition 1 10 96 100 initialState =
      ({ initialState with power_supply_mode := PSMode.CC,
                           cv_cc_transition_time := some 1,
                           voltage_before_cc := some 10,
                           current_limit_reached := true }, true) :=
  (C2_cv_cc_detector initialState 1 10 96 100).1 rfl (by norm_num)

/-- C4: `DAQController.set_outputs` rejects any commanded pair with voltage
outside [0, 300] or current outside [0, 2000] with an error, writing
nothing; an in-range pair is written with only the unit scaling to the
0-5 V control range applied (division by 60 resp. 400, which is exactly
invertible, i.e. no clamping and no information loss). -/
theorem C4_output_validation (v c : ℚ) :
    (¬(0 ≤ v ∧ v ≤ 300) →
      daqSetOutputs true v c = Except.error OutputError.voltageOutOfRange) ∧
    ((0 ≤ v ∧ v ≤ 300) → ¬(0 ≤ c ∧ c ≤ 2000) →
      daqSetOutputs true v c = Except.error OutputError.currentOutOfRange) ∧
    ((0 ≤ v ∧ v ≤ 300) → (0 ≤ c ∧ c ≤ 2000) →
      daqSetOutputs true v c = Except.ok (v / 60, c / 400) ∧
      (v / 60) * 60 = v ∧ (c / 400) * 400 = c) := by
  refine ⟨?_, ?_, ?_⟩
  · intro h1
    simp [daqSetOutputs, h1]
  · intro h1 h2
    simp [daqSetOutputs, h1, h2]
  · intro h1 h2
    refine ⟨?_, by norm_num, by norm_num⟩
    simp [daqSetOutputs, h1, h2, VOLTAGE_SCALE_OUTPUT, CURRENT_SCALE]
    norm_num

theorem C4_witness :
    daqSetOutputs true 400 100 = Except.error OutputError.voltageOutOfRange ∧
    daqSetOutputs true 120 800 = Except.ok (2, 2) := by
  constructor
  · exact (C4_output_validation 400 100).1 (by norm_num)
  · have h := ((C4_output_validation 120 800).2.2 (by norm_num) (by norm_num)).1
    rw [h]
    norm_num

/-- C7: `stop_process` never raises: it is a total function on every device
state (`hwOk` covers both a working and a failing hardware write), always
returns with `is_running = false`, zeroes the outputs when the write
succeeds, and swallows the failure (changing nothing but the run flag)
when it does not. -/
theorem C7_stop_never_raises (hwOk : Bool) (s : ControllerState) :
    (stopProcess hwOk s).is_running = false ∧
    (hwOk = true → stopProcess hwOk s = { s with is_running := false, outputs := (0, 0) }) ∧
    (hwOk = false → stopProcess hwOk s = { s with is_running := false }) := by
  refine ⟨?_, fun h => by rw [h, stopProcess_true], fun h => by rw [h, stopProcess_false]⟩
  cases hwOk
  · rw [stopProcess_false]
  · rw [stopProcess_true]

theorem C7_witness :
    (stopProcess false initialState).is_running = false ∧
    stopProcess false initialState = { initialState with is_running := false } :=
  ⟨(C7_stop_never_raises false initialState).1,
    (C7_stop_never_raises false initialState).2.2 rfl⟩

/-- C9: `update_parameters` derives the limits as
`voltage = field * distance` and `current = density * width * thickness`
and stores exactly those values; for distance 0.4, width 1.6,
thickness 1.0, field 30, density 100 this gives exactly 12 V and
160 mA. -/
theorem C9_update_parameters (ed w th ef cd : ℚ) (s : ControllerState) :
    (updateParameters ed w th ef cd s).voltage_limit = ef * ed ∧
    (updateParameters ed w th ef cd s).current_limit = cd * w * th ∧
    (updateParameters 0.4 1.6 1 30 100 s).voltage_limit = 12 ∧
    (updateParameters 0.4 1.6 1 30 100 s).current_limit = 160 := by
  refine ⟨rfl, rfl, ?_, ?_⟩ <;>
    norm_num [updateParameters, setVoltageCurrentLimits]

theorem stageHold_limit_reached (ht now t0 : ℚ) (X : ControllerState)
    (hf : X.flash_start_time = some t0) (hge : now - t0 ≥ ht) :
    stageHold true ht now X =
      { X with
          is_running := false
          hold_time_limit := ht
          hold_elapsed_time := now - t0
          experiment_stopped_by_hold_time := true
          outputs := (0, 0) } := by
  simp only [stageHold, hf, daqSetOutputs_zero, stopProcess_true]
  simp [hf, hge]

theorem stageHold_below_limit (ht now t0 : ℚ) (X : ControllerState)
    (hf : X.flash_start_time = some t0) (hlt : now - t0 < ht) :
    stageHold true ht now X =
      if now - X.hold_start_time > 30 ∧ X.sub_stage = 0 then
        { X with
            hold_time_limit := ht
            hold_elapsed_time := now - t0
            sub_stage := 1 }
      else
        { X with
            hold_time_limit := ht
            hold_elapsed_time := now - t0 } := by
  simp only [stageHold, hf]
  simp [hf, not_le.mpr hlt]

/-- C1: on every control tick in stage HOLD (with `flash_start_time` set,
as every code path entering HOLD guarantees), the hold elapsed time is
`now - flash_start_time`, whatever `hold_start_time` is; when that elapsed
time reaches `hold_time_limit`, the tick zeroes both outputs, stops the
run (`is_running = false`), and sets `experiment_stopped_by_hold_time`,
staying in HOLD rather than moving to SHUTDOWN; below the limit the run
stays running in HOLD with the auto-stop flag untouched. -/
theorem C1_hold_termination (dt hc lim ht now t0 : ℚ) (tt vo cu te : Option ℚ)
    (s : ControllerState) (hrun : s.is_running = true)
    (hstage : s.current_stage = STAGE_HOLD) (hfst : s.flash_start_time = some t0) :
    (updateStage true dt hc lim ht tt now vo cu te s).hold_elapsed_time = now - t0 ∧
    (now - t0 ≥ ht →
      (updateStage true dt hc lim ht tt now vo cu te s).outputs = (0, 0) ∧
      (updateStage true dt hc lim ht tt now vo cu te s).is_running = false ∧
      (updateStage true dt hc lim ht tt now vo cu te s).experiment_stopped_by_hold_time = true ∧
      (updateStage true dt hc lim ht tt now vo cu te s).current_stage = STAGE_HOLD) ∧
    (now - t0 < ht →
      (updateStage true dt hc lim ht tt now vo cu te s).is_running = true ∧
      (updateStage true dt hc lim ht tt now vo cu te s).current_stage = STAGE_HOLD ∧
      (updateStage true dt hc lim ht tt now vo cu te s).experiment_stopped_by_hold_time =
        s.experiment_stopped_by_hold_time) := by
  obtain ⟨m, t, vb, r, hEq⟩ := afterDetect_frame now lim vo cu s
  rw [updateStage_hold true dt hc lim ht tt now vo cu te s hrun hstage, hEq]
  have hf : ({ s with
      power_supply_mode := m
      cv_cc_transition_time := t
      voltage_before_cc := vb
      current_limit_reached := r } : ControllerState).flash_start_time = some t0 := hfst
  refine ⟨?_, fun hge => ?_, fun hlt => ?_⟩
  · by_cases hcomp : now - t0 ≥ ht
    · rw [stageHold_limit_reached ht now t0 _ hf hcomp]
    · rw [stageHold_below_limit ht now t0 _ hf (not_le.mp hcomp)]
      split_ifs <;> rfl
  · rw [stageHold_limit_reached ht now t0 _ hf hge]
    simp [hstage]
  · rw [stageHold_below_limit ht now t0 _ hf hlt]
    split_ifs <;> simp [hrun, hstage]

theorem C1_witness :
    (updateStage true 0 60 100 10 none (101/10) none none none
      { initialState with
          is_running := true
          current_stage := STAGE_HOLD
          flash_start_time := some 0 }).is_running = false ∧
    (updateStage true 0 60 100 10 none (101/10) none none none
      { initialState with
          is_running := true
          current_stage := STAGE_HOLD
          flash_start_time := some 0 }).experiment_stopped_by_hold_time = true ∧
    (updateStage true 0 60 100 10 none (101/10) none none none
      { initialState with
          is_running := true
          current_stage := STAGE_HOLD
          flash_start_time := some 0 }).outputs = (0, 0) := by
  have h := C1_hold_termination 0 60 100 10 (101/10) 0 none none none none
      { initialState with
          is_running := true
          current_stage := STAGE_HOLD
          flash_start_time := some 0 } rfl rfl rfl
  have h2 := h.2.1 (by norm_num)
  exact ⟨h2.2.1, h2.2.2.1, h2.1⟩

theorem afterDetect_none_current (now lim : ℚ) (vo : Option ℚ) (s : ControllerState) :
    afterDetect now lim vo none s = s := by
  cases vo <;> rfl

theorem daqSetOutputs_false (v c : ℚ) :
    daqSetOutputs false v c = Except.error OutputError.daqUnavailable := rfl

theorem optTruthy_none : optTruthy none = false := rfl

theorem stageDwell_frame (dt ct : ℚ) (tt te : Option ℚ) (s : ControllerState) :
    (stageDwell dt tt ct te s).power_supply_mode = s.power_supply_mode ∧
    (stageDwell dt tt ct te s).cv_cc_transition_time = s.cv_cc_transition_time ∧
    (stageDwell dt tt ct te s).voltage_before_cc = s.voltage_before_cc ∧
    (stageDwell dt tt ct te s).current_limit_reached = s.current_limit_reached := by
  simp only [stageDwell, advanceDwell]
  split_ifs <;> simp

theorem stageIncubation_frame (lim now : ℚ) (cu : Option ℚ) (s : ControllerState) :
    (stageIncubation lim now cu s).power_supply_mode = s.power_supply_mode ∧
    (stageIncubation lim now cu s).cv_cc_transition_time = s.cv_cc_transition_time ∧
    (stageIncubation lim now cu s).voltage_before_cc = s.voltage_before_cc ∧
    (stageIncubation lim now cu s).current_limit_reached = s.current_limit_reached := by
  simp only [stageIncubation]
  split_ifs <;> simp

theorem stageFlash_none (lim now : ℚ) (s : ControllerState) :
    stageFlash lim none now s = s := by
  simp [stageFlash, optTruthy]

theorem stageIncubation_none_noTransition (lim now : ℚ) (s : ControllerState)
    (hnp : ¬(s.power_supply_mode = PSMode.CC ∧ optTruthy s.cv_cc_transition_time = true ∧
        now - s.cv_cc_transition_time.getD 0 < 1)) :
    stageIncubation lim now none s = s := by
  simp only [stageIncubation]
  rw [if_neg hnp, if_neg (by simp [optTruthy_none])]

theorem stageHold_frame (hwOk : Bool) (ht now : ℚ) (s : ControllerState) :
    (stageHold hwOk ht now s).power_supply_mode = s.power_supply_mode ∧
    (stageHold hwOk ht now s).cv_cc_transition_time = s.cv_cc_transition_time ∧
    (stageHold hwOk ht now s).voltage_before_cc = s.voltage_before_cc ∧
    (stageHold hwOk ht now s).current_limit_reached = s.current_limit_reached ∧
    (stageHold hwOk ht now s).current_stage = s.current_stage := by
  cases hwOk <;>
    simp only [stageHold, stopProcess, daqSetOutputs_false, daqSetOutputs_zero] <;>
    split_ifs <;> simp

theorem stageShutdown_frame (hwOk : Bool) (hc now : ℚ) (s : ControllerState) :
    (stageShutdown hwOk hc now s).power_supply_mode = s.power_supply_mode ∧
    (stageShutdown hwOk hc now s).cv_cc_transition_time = s.cv_cc_transition_time ∧
    (stageShutdown hwOk hc now s).voltage_before_cc = s.voltage_before_cc ∧
    (stageShutdown hwOk hc now s).current_limit_reached = s.current_limit_reached ∧
    (stageShutdown hwOk hc now s).current_stage = s.current_stage := by
  cases hwOk <;>
    simp only [stageShutdown, stopProcess, daqSetOutputs_false, daqSetOutputs_zero] <;>
    split_ifs <;> simp

/-- C3 counterexample: in INCUBATION with no recent CV→CC transition and
current exactly at 90% of the limit (claim's `≥ 0.9 * current_limit`
boundary), the code does **not** advance to FLASH: the fallback in the
source is the strict comparison `current > 0.9 * current_limit`. -/
theorem C3_counterexample :
    (90 : ℚ) ≥ 0.9 * 100 ∧
    (updateStage true 0 60 100 60 none 5 (some 10) (some 90) none
      { initialState with
          is_running := true
          current_stage := STAGE_INCUBATION }).current_stage = STAGE_INCUBATION := by
  refine ⟨by norm_num, ?_⟩
  rw [updateStage_incubation true 0 60 100 60 none 5 (some 10) (some 90) none _ rfl rfl]
  have hd : afterDetect 5 100 (some 10) (some 90)
      { initialState with
          is_running := true
          current_stage := STAGE_INCUBATION } =
      { initialState with
          is_running := true
          current_stage := STAGE_INCUBATION } := by
    norm_num [afterDetect, detectCvCcTransition, initialState]
  rw [hd]
  norm_num [stageIncubation, optTruthy, initialState]

/-- C3 (amended): in INCUBATION the stage advances to FLASH with
`flash_start_time = now` when the detector (after this tick's update) is
in CC with a transition recorded within the last 1.0 s; otherwise it also
advances when `current > 0.9 * current_limit` holds **strictly** (at
exactly 90% the fallback does not fire); when neither trigger holds, the
tick leaves the state as the detector left it.  Both triggers write the
same state, so the transition-based precedence is observable only in the
log message. -/
theorem C3_flash_triggers (dt hc lim ht now : ℚ) (tt vo cu te : Option ℚ)
    (s : ControllerState) (hrun : s.is_running = true)
    (hstage : s.current_stage = STAGE_INCUBATION) :
    ((afterDetect now lim vo cu s).power_supply_mode = PSMode.CC ∧
        optTruthy (afterDetect now lim vo cu s).cv_cc_transition_time = true ∧
        now - (afterDetect now lim vo cu s).cv_cc_transition_time.getD 0 < 1 →
      (updateStage true dt hc lim ht tt now vo cu te s).current_stage = STAGE_FLASH ∧
      (updateStage true dt hc lim ht tt now vo cu te s).flash_start_time = some now) ∧
    (optTruthy cu = true ∧ cu.getD 0 > 0.9 * lim →
      (updateStage true dt hc lim ht tt now vo cu te s).current_stage = STAGE_FLASH ∧
      (updateStage true dt hc lim ht tt now vo cu te s).flash_start_time = some now) ∧
    (¬((afterDetect now lim vo cu s).power_supply_mode = PSMode.CC ∧
        optTruthy (afterDetect now lim vo cu s).cv_cc_transition_time = true ∧
        now - (afterDetect now lim vo cu s).cv_cc_transition_time.getD 0 < 1) →
      ¬(optTruthy cu = true ∧ cu.getD 0 > 0.9 * lim) →
      updateStage true dt hc lim ht tt now vo cu te s = afterDetect now lim vo cu s) := by
  rw [updateStage_incubation true dt hc lim ht tt now vo cu te s hrun hstage]
  refine ⟨fun hp => ?_, fun hq => ?_, fun hnp hnq => ?_⟩
  · simp [stageIncubation, hp.1, hp.2.1, hp.2.2]
  · by_cases hp : (afterDetect now lim vo cu s).power_supply_mode = PSMode.CC ∧
        optTruthy (afterDetect now lim vo cu s).cv_cc_transition_time = true ∧
        now - (afterDetect now lim vo cu s).cv_cc_transition_time.getD 0 < 1
    · simp [stageIncubation, hp.1, hp.2.1, hp.2.2]
    · simp [stageIncubation, hp, hq.1, hq.2]
  · simp [stageIncubation, hnp, hnq]

theorem C3_witness :
    (updateStage true 0 60 100 60 none 5 none none none
      { initialState with
          is_running := true
          current_stage := STAGE_INCUBATION
          power_supply_mode := PSMode.CC
          cv_cc_transition_time := some (9/2)
          current_limit_reached := true }).current_stage = STAGE_FLASH ∧
    (updateStage true 0 60 100 60 none 5 none none none
      { initialState with
          is_running := true
          current_stage := STAGE_INCUBATION
          power_supply_mode := PSMode.CC
          cv_cc_transition_time := some (9/2)
          current_limit_reached := true }).flash_start_time = some 5 := by
  have h := (C3_flash_triggers 0 60 100 60 5 none none none none
    { initialState with
        is_running := true
        current_stage := STAGE_INCUBATION
        power_supply_mode := PSMode.CC
        cv_cc_transition_time := some (9/2)
        current_limit_reached := true } rfl rfl).1
  exact h ⟨by rw [afterDetect_none_current], by rw [afterDetect_none_current]; norm_num [optTruthy],
    by rw [afterDetect_none_current]; norm_num⟩

/-- C5 counterexample: on a control tick in DWELL whose measurement read
failed entirely (`voltage = current = None`), the stage still advances to
INCUBATION once the dwell time has elapsed, contradicting "no stage
advancement occurs that cycle". -/
theorem C5_counterexample :
    (updateStage true 1 60 100 60 none 5 none none none
      { initialState with is_running := true }).current_stage = STAGE_INCUBATION ∧
    STAGE_INCUBATION ≠ STAGE_DWELL := by
  refine ⟨?_, by decide⟩
  rw [updateStage_dwell true 1 60 100 60 none 5 none none none _ rfl rfl]
  rw [afterDetect_none_current]
  norm_num [stageDwell, advanceDwell, optTruthy, initialState]

/-- C5 (amended): on a tick whose current read failed (`current = None`)
the CV/CC detector state is untouched and no current-threshold trigger
fires (FLASH does not advance to HOLD; INCUBATION advances only on a
recent CV→CC transition), but purely time-based behaviour — the
DWELL→INCUBATION advance, the HOLD auto-termination and the SHUTDOWN stop
— still executes, and a failed DAQ voltage read returns the substituted
default `0.0` instead of discarding the tick. -/
theorem C5_failed_current_read (hwOk : Bool) (dt hc lim ht now : ℚ) (tt vo te : Option ℚ)
    (s : ControllerState) :
    (updateStage hwOk dt hc lim ht tt now vo none te s).power_supply_mode =
      s.power_supply_mode ∧
    (updateStage hwOk dt hc lim ht tt now vo none te s).cv_cc_transition_time =
      s.cv_cc_transition_time ∧
    (updateStage hwOk dt hc lim ht tt now vo none te s).voltage_before_cc =
      s.voltage_before_cc ∧
    (updateStage hwOk dt hc lim ht tt now vo none te s).current_limit_reached =
      s.current_limit_reached ∧
    (s.current_stage = STAGE_FLASH →
      (updateStage hwOk dt hc lim ht tt now vo none te s).current_stage = STAGE_FLASH) ∧
    (s.current_stage = STAGE_INCUBATION →
      ¬(s.power_supply_mode = PSMode.CC ∧ optTruthy s.cv_cc_transition_time = true ∧
          now - s.cv_cc_transition_time.getD 0 < 1) →
      (updateStage hwOk dt hc lim ht tt now vo none te s).current_stage = STAGE_INCUBATION) ∧
    readSampleVoltageImproved 5 300 none = 0 := by
  unfold updateStage
  rw [afterDetect_none_current]
  dsimp only
  split_ifs with h1 h2 h3 h4 h5 h6
  · exact ⟨rfl, rfl, rfl, rfl, fun h => h, fun h _ => h, rfl⟩
  · obtain ⟨f1, f2, f3, f4⟩ := stageDwell_frame dt (now - s.start_time) tt te s
    exact ⟨f1, f2, f3, f4,
      fun h => absurd (h.symm.trans h2) (by simp [STAGE_DWELL, STAGE_FLASH]),
      fun h _ => absurd (h.symm.trans h2) (by simp [STAGE_DWELL, STAGE_INCUBATION]), rfl⟩
  · obtain ⟨f1, f2, f3, f4⟩ := stageIncubation_frame lim now none s
    refine ⟨f1, f2, f3, f4,
      fun h => absurd (h.symm.trans h3) (by simp [STAGE_INCUBATION, STAGE_FLASH]),
      fun _ hnp => ?_, rfl⟩
    rw [stageIncubation_none_noTransition lim now s hnp]
    exact h3
  · rw [stageFlash_none]
    exact ⟨rfl, rfl, rfl, rfl, fun h => h, fun h _ => h, rfl⟩
  · obtain ⟨f1, f2, f3, f4, f5⟩ := stageHold_frame hwOk ht now s
    exact ⟨f1, f2, f3, f4,
      fun h => absurd (h.symm.trans h5) (by simp [STAGE_HOLD, STAGE_FLASH]),
      fun h _ => absurd (h.symm.trans h5) (by simp [STAGE_HOLD, STAGE_INCUBATION]), rfl⟩
  · obtain ⟨f1, f2, f3, f4, f5⟩ := stageShutdown_frame hwOk hc now s
    exact ⟨f1, f2, f3, f4,
      fun h => absurd (h.symm.trans h6) (by simp [STAGE_SHUTDOWN, STAGE_FLASH]),
      fun h _ => absurd (h.symm.trans h6) (by simp [STAGE_SHUTDOWN, STAGE_INCUBATION]), rfl⟩
  · exact ⟨rfl, rfl, rfl, rfl, fun h => h, fun h _ => h, rfl⟩

theorem C5_witness :
    (updateStage true 0 60 100 60 none 5 none none none
      { initialState with
          is_running := true
          current_stage := STAGE_FLASH }).current_stage = STAGE_FLASH ∧
    (updateStage true 0 60 100 60 none 5 none none none
      { initialState with
          is_running := true
          current_stage := STAGE_FLASH }).power_supply_mode = PSMode.CV := by
  have h := C5_failed_current_read true 0 60 100 60 5 none none none
    { initialState with
        is_running := true
        current_stage := STAGE_FLASH }
  exact ⟨h.2.2.2.2.1 rfl, h.1⟩

theorem afterDetect_stage (now lim : ℚ) (vo cu : Option ℚ) (s : ControllerState) :
    (afterDetect now lim vo cu s).current_stage = s.current_stage := by
  obtain ⟨m, t, vb, r, hEq⟩ := afterDetect_frame now lim vo cu s
  rw [hEq]

theorem updateStage_not_running (hwOk : Bool) (dt hc lim ht : ℚ) (tt : Option ℚ)
    (now : ℚ) (vo cu te : Option ℚ) (s : ControllerState)
    (h : s.is_running = false) :
    updateStage hwOk dt hc lim ht tt now vo cu te s = s := by
  unfold updateStage
  simp [h]

theorem updateStage_other (hwOk : Bool) (dt hc lim ht : ℚ) (tt : Option ℚ)
    (now : ℚ) (vo cu te : Option ℚ) (s : ControllerState)
    (hrun : s.is_running = true)
    (h0 : s.current_stage ≠ STAGE_DWELL) (h1 : s.current_stage ≠ STAGE_INCUBATION)
    (h2 : s.current_stage ≠ STAGE_FLASH) (h3 : s.current_stage ≠ STAGE_HOLD)
    (h4 : s.current_stage ≠ STAGE_SHUTDOWN) :
    updateStage hwOk dt hc lim ht tt now vo cu te s = afterDetect now lim vo cu s := by
  obtain ⟨m, t, vb, r, hEq⟩ := afterDetect_frame now lim vo cu s
  unfold updateStage
  rw [hEq]
  simp [hrun, h0, h1, h2, h3, h4]

theorem stageDwell_stage (dt ct : ℚ) (tt te : Option ℚ) (s : ControllerState) :
    (stageDwell dt tt ct te s).current_stage = s.current_stage ∨
    (stageDwell dt tt ct te s).current_stage = STAGE_INCUBATION := by
  simp only [stageDwell, advanceDwell]
  split_ifs <;> simp

theorem stageIncubation_stage (lim now : ℚ) (cu : Option ℚ) (s : ControllerState) :
    (stageIncubation lim now cu s).current_stage = s.current_stage ∨
    (stageIncubation lim now cu s).current_stage = STAGE_FLASH := by
  simp only [stageIncubation]
  split_ifs <;> simp

theorem stageFlash_stage (lim now : ℚ) (cu : Option ℚ) (s : ControllerState) :
    (stageFlash lim cu now s).current_stage = s.current_stage ∨
    (stageFlash lim cu now s).current_stage = STAGE_HOLD := by
  simp only [stageFlash]
  split_ifs <;> simp

/-- C6: within one run the stage is monotonic non-decreasing over
DWELL(0) < INCUBATION(1) < FLASH(2) < HOLD(3) < SHUTDOWN(4): no call to
`update_stage` moves the stage to a smaller value, `stop_process` leaves
the stage untouched (ending the run without regressing it), and
`start_process` is the operation that resets the stage to DWELL. -/
theorem C6_stage_monotone (hwOk dConn kConn : Bool) (dt hc lim ht v c now : ℚ)
    (tt vo cu te : Option ℚ) (s r : ControllerState) :
    s.current_stage ≤ (updateStage hwOk dt hc lim ht tt now vo cu te s).current_stage ∧
    (stopProcess hwOk s).current_stage = s.current_stage ∧
    (startProcess dConn kConn hwOk v c now s = Except.ok r →
      r.current_stage = STAGE_DWELL) := by
  refine ⟨?_, ?_, ?_⟩
  · by_cases hr : s.is_running = true
    · by_cases h0 : s.current_stage = STAGE_DWELL
      · rw [updateStage_dwell hwOk dt hc lim ht tt now vo cu te s hr h0]
        rcases stageDwell_stage dt (now - s.start_time) tt te (afterDetect now lim vo cu s)
          with h | h
        · rw [h, afterDetect_stage]
        · rw [h, h0]
          decide
      · by_cases h1 : s.current_stage = STAGE_INCUBATION
        · rw [updateStage_incubation hwOk dt hc lim ht tt now vo cu te s hr h1]
          rcases stageIncubation_stage lim now cu (afterDetect now lim vo cu s) with h | h
          · rw [h, afterDetect_stage]
          · rw [h, h1]
            decide
        · by_cases h2 : s.current_stage = STAGE_FLASH
          · rw [updateStage_flash hwOk dt hc lim ht tt now vo cu te s hr h2]
            rcases stageFlash_stage lim now cu (afterDetect now lim vo cu s) with h | h
            · rw [h, afterDetect_stage]
            · rw [h, h2]
              decide
          · by_cases h3 : s.current_stage = STAGE_HOLD
            · rw [updateStage_hold hwOk dt hc lim ht tt now vo cu te s hr h3]
              rw [(stageHold_frame hwOk ht now (afterDetect now lim vo cu s)).2.2.2.2,
                afterDetect_stage]
            · by_cases h4 : s.current_stage = STAGE_SHUTDOWN
              · rw [updateStage_shutdown hwOk dt hc lim ht tt now vo cu te s hr h4]
                rw [(stageShutdown_frame hwOk hc now (afterDetect now lim vo cu s)).2.2.2.2,
                  afterDetect_stage]
              · rw [updateStage_other hwOk dt hc lim ht tt now vo cu te s hr h0 h1 h2 h3 h4,
                  afterDetect_stage]
    · rw [updateStage_not_running hwOk dt hc lim ht tt now vo cu te s
        (Bool.not_eq_true _ ▸ hr)]
  · cases hwOk <;> simp [stopProcess_false, stopProcess_true]
  · intro h
    unfold startProcess at h
    split_ifs at h
    dsimp only at h
    split at h <;>
      · injection h with h'
        rw [← h']

theorem lookup_assocSet {α : Type} (l : List (String × α)) (k : String) (v : α) :
    (assocSet l k v).lookup k = some v := by
  induction l with
  | nil => simp [assocSet]
  | cons p rest ih =>
    by_cases h : p.1 = k
    · simp [assocSet, h]
    · have hb : (k == p.1) = false := beq_eq_false_iff_ne.mpr (fun hk => h hk.symm)
      simp [assocSet, h, List.lookup, hb, ih]

theorem updatePeriod_running (name : String) (p : ℚ) (tm : TimerManagerState) :
    (updatePeriod name p tm).running = tm.running := by
  unfold updatePeriod
  split_ifs <;> rfl

theorem updatePeriod_lookup (name : String) (p : ℚ) (tm : TimerManagerState)
    (hreg : (tm.timers.lookup name).isSome = true) :
    (updatePeriod name p tm).timers.lookup name = some p := by
  unfold updatePeriod
  rw [if_pos hreg]
  exact lookup_assocSet tm.timers name p

theorem timerLoopRun_length (tm : TimerManagerState) (name : String)
    (hrun : tm.running = true) :
    ∀ ticks : List (Option ℚ × ℚ × Bool),
      (timerLoopRun tm name ticks).length = ticks.length := by
  intro ticks
  induction ticks generalizing tm with
  | nil => rfl
  | cons t rest ih =>
    obtain ⟨upd, e, ok⟩ := t
    simp only [timerLoopRun]
    rw [if_neg (by simp [hrun])]
    cases upd with
    | none => simp [ih tm hrun]
    | some q =>
      simp [ih (updatePeriod name q tm) (by rw [updatePeriod_running, hrun])]

/-- C8: one iteration of a timer task's loop, while `running`, invokes the
callback and then sleeps `max(0, period - elapsed)` where the period is
the dict value current at that iteration (so `update_period` takes effect
at the next tick, and an update to a registered timer makes the next
sleep use exactly the new period); a callback failure is swallowed, so
the step result is independent of the callback outcome and the loop
processes every tick regardless of failures. -/
theorem C8_timer_loop (tm : TimerManagerState) (name : String) (e p : ℚ) (ok : Bool)
    (hrun : tm.running = true) (hreg : (tm.timers.lookup name).isSome = true) :
    timerLoopStep tm name e ok = some (max 0 ((tm.timers.lookup name).getD 0 - e)) ∧
    timerLoopStep tm name e false = timerLoopStep tm name e true ∧
    timerLoopStep (updatePeriod name p tm) name e ok = some (max 0 (p - e)) ∧
    (∀ ticks : List (Option ℚ × ℚ × Bool),
      (timerLoopRun tm name ticks).length = ticks.length) := by
  refine ⟨?_, rfl, ?_, timerLoopRun_length tm name hrun⟩
  · simp [timerLoopStep, hrun]
  · simp [timerLoopStep, updatePeriod_running, hrun, updatePeriod_lookup name p tm hreg]

theorem C8_witness :
    timerLoopStep (startAll (addTimer "control" (1/10) emptyTimerManager))
      "control" (3/100) false = some (7/100) ∧
    timerLoopStep
      (updatePeriod "control" (1/100) (startAll (addTimer "control" (1/10) emptyTimerManager)))
      "control" (3/100) false = some 0 := by
  have h := C8_timer_loop (startAll (addTimer "control" (1/10) emptyTimerManager))
    "control" (3/100) (1/100) false rfl rfl
  constructor
  · rw [h.1]
    norm_num [startAll, addTimer, emptyTimerManager, assocSet]
  · rw [h.2.2.1]
    norm_num

/-- C10 counterexample: a timer registered after `start_all` (thread slot
still `None`) makes `stop_timer` a no-op: the shared `running` flag stays
true and the other timers keep running, contradicting the claim for
"every registered timer name". -/
theorem C10_counterexample :
    ((addTimer "temperature" 1 (startAll (addTimer "control" (1/10)
        emptyTimerManager))).threads.lookup "temperature").isSome = true ∧
    (stopTimer "temperature" (addTimer "temperature" 1 (startAll (addTimer "control" (1/10)
        emptyTimerManager)))).running = true ∧
    (addTimer "temperature" 1 (startAll (addTimer "control" (1/10)
        emptyTimerManager))).threads.lookup "control" = some true := by
  refine ⟨?_, ?_, ?_⟩ <;>
    simp [addTimer, startAll, stopTimer, emptyTimerManager, assocSet, List.lookup]

/-- C10 (amended): for every registered timer name whose thread slot is
non-`None` (started and not yet stopped), `stop_timer` clears the single
`running` flag shared by all timers, after which every timer's loop —
not only the named one — exits at its next check of the flag. -/
theorem C10_stop_clears_running (tm : TimerManagerState) (name : String)
    (h : tm.threads.lookup name = some true) :
    (stopTimer name tm).running = false ∧
    (∀ other : String, ∀ e : ℚ, ∀ ok : Bool,
      timerLoopStep (stopTimer name tm) other e ok = none) := by
  unfold stopTimer
  rw [h]
  exact ⟨rfl, fun other e ok => by simp [timerLoopStep]⟩

theorem C10_witness :
    (stopTimer "control" (startAll (addTimer "data" (1/10) (addTimer "control" (1/10)
        emptyTimerManager)))).running = false ∧
    timerLoopStep (stopTimer "control" (startAll (addTimer "data" (1/10) (addTimer "control" (1/10)
        emptyTimerManager)))) "data" (1/100) true = none := by
  have h := C10_stop_clears_running
    (startAll (addTimer "data" (1/10) (addTimer "control" (1/10) emptyTimerManager)))
    "control" (by simp [addTimer, startAll, emptyTimerManager, assocSet, List.lookup])
  exact ⟨h.1, h.2 "data" (1/100) true⟩

theorem C6_witness :
    initialState.current_stage ≤
      (updateStage true 1 60 100 60 none 5 none none none initialState).current_stage ∧
    (stopProcess true initialState).current_stage = initialState.current_stage ∧
    ({ initialState with
        is_running := true
        start_time := 5
        last_voltage := 100
        last_current := 160
        voltage_limit := 100
        current_limit := 160
        outputs := (5/3, 2/5) } : ControllerState).current_stage = STAGE_DWELL := by
  have h := C6_stage_monotone true true true 1 60 100 60 100 160 5 none none none none
    initialState
    { initialState with
        is_running := true
        start_time := 5
        last_voltage := 100
        last_current := 160
        voltage_limit := 100
        current_limit := 160
        outputs := (5/3, 2/5) }
  refine ⟨h.1, h.2.1, h.2.2 ?_⟩
  simp only [startProcess, daqSetOutputs, VOLTAGE_SCALE_OUTPUT, CURRENT_SCALE, initialState]
  norm_num
